import Mathlib

/-!
# tree-sitter.el: query and query-cursor bridge

A shallow embedding of `src/query.c`, `src/qcursor.c` and `src/language.c`:
the Emacs module functions that wrap tree-sitter's `TSQuery` and
`TSQueryCursor` in host records, validate those records on every use and
release the native objects from user-pointer finalizers.

The C functions are state transformers over a `World` (the pending
non-local exit of the `emacs_env`, the wrapper structs on the C heap, the
user pointers handed to the host and the ordered trace of calls into the
native library and the allocator).  Results of calls that leave the
repository (tree-sitter, `malloc`, Lisp constructors) are inputs of the
function that makes the call.
-/

namespace TreeSitterEl

/-! ## Host values -/

/-- A native address; `0` is `NULL`. -/
abbrev Ptr := Nat

/-- Identity of a user-pointer finalizer (`emacs_finalizer *`): the two static
functions of this development, or any function of another producer. -/
inductive Finalizer where
  | tsel_query_fin
  | tsel_qcursor_fin
  | foreign (id : Nat)
  deriving DecidableEq, Repr

/-- An `emacs_value`.  A record holds its type tag in slot 0, as Emacs records
do; `null` is the `NULL` value that `emacs_env` functions hand back while a
non-local exit is pending. -/
inductive EmacsValue where
  | null
  | symbol (name : String)
  | integer (i : Int)
  | string (s : String)
  | user_ptr (fin : Option Finalizer) (ptr : Ptr)
  | record (slots : List EmacsValue)
  deriving Repr, Inhabited

/-- The interned symbol `nil` (`tsel_Qnil`). -/
def tsel_Qnil : EmacsValue := .symbol "nil"

/-- The interned symbol `t` (`tsel_Qt`). -/
def tsel_Qt : EmacsValue := .symbol "t"

/-- A pending non-local exit. -/
inductive Signal where
  | error (message : String)
  | wrong_type (predicate : String) (value : EmacsValue)
  | host (code : Nat)
  deriving Repr

/-! ## Native data -/

/-- A `TSNode`, identified by its `id` field. -/
structure TSNode where
  id : Nat
  deriving DecidableEq, Repr

/-- A `TSPoint`. -/
structure TSPoint where
  row : Nat
  column : Nat
  deriving DecidableEq, Repr

/-- The `TSQueryError` enumeration, in declaration order. -/
inductive TSQueryError where
  | None
  | Syntax
  | NodeType
  | Field
  | Capture
  deriving DecidableEq, Repr

/-- The integer value of a `TSQueryError`. -/
def TSQueryError.toNat : TSQueryError → Nat
  | .None => 0
  | .Syntax => 1
  | .NodeType => 2
  | .Field => 3
  | .Capture => 4

/-- A `TSQueryCapture`. -/
structure TSQueryCapture where
  node : TSNode
  index : Nat
  deriving DecidableEq, Repr

/-- A `TSQueryMatch`; `captures` is the array the `captures` pointer refers to. -/
structure TSQueryMatch where
  id : Nat
  pattern_index : Nat
  capture_count : Nat
  captures : List TSQueryCapture
  deriving DecidableEq, Repr

/-- The struct `TSElQuery` of `query.h`. -/
structure TSElQuery where
  query : Ptr
  deriving DecidableEq, Repr

/-- The struct `TSElQueryCursor` of `qcursor.h`; `node` is `none` while the
field is uninitialised (`malloc` does not clear the block). -/
structure TSElQueryCursor where
  cursor : Ptr
  node : Option Ptr
  deriving DecidableEq, Repr

/-- The struct `TSElNode` as `qcursor.c` uses it: the fields `node` and `tree`. -/
structure TSElNode where
  node : TSNode
  tree : Ptr
  deriving DecidableEq, Repr

/-- The struct `TSElLanguage` as the sources use it: the `tag` bytes (up to and
including the terminator, when there is one) and the grammar pointer `ptr`. -/
structure TSElLanguage where
  tag : List Nat
  ptr : Ptr
  deriving DecidableEq, Repr

/-- What a block on the C heap holds. -/
inductive Block where
  | query (q : TSElQuery)
  | qcursor (c : TSElQueryCursor)
  | node (n : TSElNode)
  | language (l : TSElLanguage)
  | bytes (b : List Nat)
  deriving DecidableEq, Repr

/-- A heap block: `free` clears `live` and leaves the contents in place. -/
structure Cell where
  live : Bool
  val : Block
  deriving DecidableEq, Repr

/-- A call that leaves the module: into tree-sitter or into the allocator. -/
inductive Call where
  | malloc (bytes : Nat) (result : Ptr)
  | free (p : Ptr)
  | ts_query_new (language : Ptr) (source : String) (length : Nat)
  | ts_query_delete (query : Ptr)
  | ts_query_start_byte_for_pattern (query : Ptr) (id : Nat)
  | ts_query_cursor_new
  | ts_query_cursor_delete (cursor : Ptr)
  | ts_query_cursor_exec (cursor : Ptr) (query : Ptr) (node : TSNode)
  | ts_query_cursor_next_match (cursor : Ptr)
  | ts_query_cursor_next_capture (cursor : Ptr)
  | ts_query_cursor_remove_match (cursor : Ptr) (id : Nat)
  | ts_query_cursor_set_byte_range (cursor : Ptr) (start_byte : Nat) (end_byte : Nat)
  | ts_query_cursor_set_point_range (cursor : Ptr) (start_point : TSPoint) (end_point : TSPoint)
  deriving DecidableEq, Repr

/-- The state the module functions act on. -/
structure World where
  pending : Option Signal
  heap : List (Ptr × Cell)
  user_ptrs : List (Finalizer × Ptr)
  trace : List Call
  deriving Repr

/-- Whether a call is one of the `ts_query_cursor_*` functions. -/
def Call.isCursorCall : Call → Bool
  | .ts_query_cursor_new => true
  | .ts_query_cursor_delete _ => true
  | .ts_query_cursor_exec _ _ _ => true
  | .ts_query_cursor_next_match _ => true
  | .ts_query_cursor_next_capture _ => true
  | .ts_query_cursor_remove_match _ _ => true
  | .ts_query_cursor_set_byte_range _ _ _ => true
  | .ts_query_cursor_set_point_range _ _ _ => true
  | _ => false

/-- Append a call to the trace. -/
def World.call (w : World) (c : Call) : World :=
  { w with trace := w.trace ++ [c] }

/-- The block stored at an address, live or not. -/
def World.cell (w : World) (p : Ptr) : Option Cell :=
  (w.heap.find? (fun e => e.1 == p)).map (fun e => e.2)

/-- Read through a pointer: the contents of the live block at `p`.  A block that
was freed, or an address that never held a block, yields nothing: such a read is
undefined. -/
def World.read (w : World) (p : Ptr) : Option Block :=
  (w.cell p).bind (fun c => if c.live then some c.val else none)

/-- Overwrite the contents of the block at `p`. -/
def World.write (w : World) (p : Ptr) (b : Block) : World :=
  { w with heap := w.heap.map (fun e => if e.1 == p then (e.1, { e.2 with val := b }) else e) }

/-- A `malloc` of `bytes` bytes that returned `p`: logged in the trace and, when
`p` is not `NULL`, a fresh live block with no contents yet. -/
def World.malloc (w : World) (bytes : Nat) (p : Ptr) : World :=
  { w with
    heap := if p == 0 then w.heap
            else (p, { live := true, val := Block.bytes [] }) :: w.heap.filter (fun e => e.1 != p)
    trace := w.trace ++ [Call.malloc bytes p] }

/-- The C `free`: logged in the trace, the block is marked dead. -/
def World.free (w : World) (p : Ptr) : World :=
  { w with
    heap := w.heap.map (fun e => if e.1 == p then (e.1, { e.2 with live := false }) else e)
    trace := w.trace ++ [Call.free p] }

/-- How many times a given call occurs in the trace. -/
def World.count (w : World) (c : Call) : Nat :=
  w.trace.count c

/-! ## The host interface (`emacs_env`) -/

/-- The collaborators that are outside the sources at hand: Lisp functions
reached through `funcall`, the allocation of a user pointer, and the node and
point marshalling of `node.h` and `point.h`. -/
structure Host where
  /-- A Lisp function called by name: its value, or the signal it raises. -/
  funcall : String → List EmacsValue → Except Signal EmacsValue
  /-- The signal `make_user_ptr` raises, `none` when it succeeds. -/
  make_user_ptr : Option Signal
  /-- The `TSElNode *` behind a host value that passes `tree-sitter-node-p`. -/
  node_ptr : EmacsValue → Option Ptr
  /-- The `TSPoint` a host value that passes `tree-sitter-point-p` converts to. -/
  point : EmacsValue → Option TSPoint
  /-- The host node built by `tsel_node_emacs_move` from a `TSNode` and a tree. -/
  node_emacs_move : TSNode → Ptr → EmacsValue

/-- Modelled from the spec: `tsel_pending_nonlocal_exit` of the absent `common.c`,
whether the environment holds a pending non-local exit. -/
def tsel_pending_nonlocal_exit (w : World) : Bool :=
  w.pending.isSome

/-- The `non_local_exit_signal` of `emacs_env`: records the signal unless an
exit is already pending. -/
def env_signal (w : World) (s : Signal) : World :=
  if w.pending.isSome then w else { w with pending := some s }

/-- Modelled from the spec: `tsel_signal_error` of the absent `common.c`, the host
error-signalling mechanism applied to a message. -/
def tsel_signal_error (w : World) (message : String) : World :=
  env_signal w (Signal.error message)

/-- Modelled from the spec: `tsel_signal_wrong_type` of the absent `common.c`, the
"wrong type" condition that names the expected predicate and the offending value. -/
def tsel_signal_wrong_type (w : World) (predicate : String) (obj : EmacsValue) : World :=
  env_signal w (Signal.wrong_type predicate obj)

/-- The `eq` of `emacs_env` on the values this development compares: interned
symbols and fixnums.  While an exit is pending it answers `false`. -/
def env_eq (w : World) (a b : EmacsValue) : Bool :=
  if w.pending.isSome then false else
  match a, b with
  | .symbol x, .symbol y => x == y
  | .integer x, .integer y => x == y
  | _, _ => false

/-- The `funcall` of `emacs_env`.  The built-in `user-ptrp` is evaluated here;
every other function is the host's.  While an exit is pending nothing is called
and `NULL` comes back. -/
def env_funcall (H : Host) (w : World) (f : String) (args : List EmacsValue) :
    World × EmacsValue :=
  if w.pending.isSome then (w, .null) else
  if f = "user-ptrp" then
    match args with
    | [.user_ptr _ _] => (w, tsel_Qt)
    | [_] => (w, tsel_Qnil)
    | _ => ({ w with pending := some (Signal.host 0) }, .null)
  else
    match H.funcall f args with
    | .ok v => (w, v)
    | .error s => ({ w with pending := some s }, .null)

/-- The `get_user_finalizer` of `emacs_env`. -/
def env_get_user_finalizer (w : World) (v : EmacsValue) : World × Option Finalizer :=
  if w.pending.isSome then (w, none) else
  match v with
  | .user_ptr fin _ => (w, fin)
  | _ => (env_signal w (Signal.wrong_type "user-ptrp" v), none)

/-- The `get_user_ptr` of `emacs_env`. -/
def env_get_user_ptr (w : World) (v : EmacsValue) : World × Ptr :=
  if w.pending.isSome then (w, 0) else
  match v with
  | .user_ptr _ p => (w, p)
  | _ => (env_signal w (Signal.wrong_type "user-ptrp" v), 0)

/-- The `make_user_ptr` of `emacs_env`: on success the host owns a new user
pointer that will run `fin` on `p` when it is reclaimed. -/
def env_make_user_ptr (H : Host) (w : World) (fin : Finalizer) (p : Ptr) :
    World × EmacsValue :=
  if w.pending.isSome then (w, .null) else
  match H.make_user_ptr with
  | none => ({ w with user_ptrs := w.user_ptrs ++ [(fin, p)] }, .user_ptr (some fin) p)
  | some s => ({ w with pending := some s }, .null)

/-- The `make_integer` of `emacs_env`. -/
def env_make_integer (w : World) (i : Int) : EmacsValue :=
  if w.pending.isSome then .null else .integer i

/-- Modelled from the spec: `tsel_check_record_type` of the absent `common.c`, the
structural check that a host value is a record whose type tag is the symbol
`record_type` and that has `num_fields` fields after the tag. -/
def tsel_check_record_type (w : World) (record_type : String) (obj : EmacsValue)
    (num_fields : Nat) : Bool :=
  if w.pending.isSome then false else
  match obj with
  | .record (tag :: fields) => env_eq w tag (.symbol record_type) && fields.length == num_fields
  | _ => false

/-- Modelled from the spec: `tsel_record_get_field` of the absent `common.c`, the
slot `field` of a record (slot 0 being the type tag), or failure. -/
def tsel_record_get_field (w : World) (obj : EmacsValue) (field : Nat) : Option EmacsValue :=
  if w.pending.isSome then none else
  match obj with
  | .record slots => slots.get? field
  | _ => none

/-- Modelled from the spec: `tsel_extract_integer` of the absent `common.c`: a host
integer that fits `intmax_t` is handed over, anything else is a wrong-type
condition naming `integerp`. -/
def tsel_extract_integer (w : World) (obj : EmacsValue) : World × Option Int :=
  if w.pending.isSome then (w, none) else
  match obj with
  | .integer i =>
    if -(2 ^ 63 : Int) ≤ i ∧ i < 2 ^ 63 then (w, some i)
    else (tsel_signal_wrong_type w "integerp" obj, none)
  | _ => (tsel_signal_wrong_type w "integerp" obj, none)

/-- Modelled from the spec: `tsel_extract_string` of the absent `common.c`: the
text of a host string, anything else is a wrong-type condition naming `stringp`. -/
def tsel_extract_string (w : World) (obj : EmacsValue) : World × Option String :=
  if w.pending.isSome then (w, none) else
  match obj with
  | .string s => (w, some s)
  | _ => (tsel_signal_wrong_type w "stringp" obj, none)

/-- Modelled from the spec: `tsel_extract_node` of the absent `node.c`: the
`TSElNode *` of a node handle, anything else is a wrong-type condition naming
`tree-sitter-node-p`. -/
def tsel_extract_node (H : Host) (w : World) (obj : EmacsValue) : World × Option Ptr :=
  if w.pending.isSome then (w, none) else
  match H.node_ptr obj with
  | some p => (w, some p)
  | none => (tsel_signal_wrong_type w "tree-sitter-node-p" obj, none)

/-- Modelled from the spec: `tsel_extract_point` of the absent `point.c`: the
`TSPoint` of a point value, anything else is a wrong-type condition naming
`tree-sitter-point-p`. -/
def tsel_extract_point (H : Host) (w : World) (obj : EmacsValue) : World × Option TSPoint :=
  if w.pending.isSome then (w, none) else
  match H.point obj with
  | some p => (w, some p)
  | none => (tsel_signal_wrong_type w "tree-sitter-point-p" obj, none)

/-- Modelled from the spec: `tsel_node_emacs_move` of the absent `node.c`: the host
node for a native node re-homed under a tree. -/
def tsel_node_emacs_move (H : Host) (w : World) (node : TSNode) (tree : Ptr) : EmacsValue :=
  if w.pending.isSome then .null else H.node_emacs_move node tree

/-- The C `strlen` of a string handed over as `char *`: the bytes before the
first NUL character. -/
def strlen (s : String) : Nat :=
  ((s.toList.takeWhile (fun c => c ≠ Char.ofNat 0)).map Char.utf8Size).sum

/-- Conversion to `uint32_t`. -/
def to_uint32 (i : Int) : Nat :=
  (i % 2 ^ 32).toNat

/-- How `printf` renders a `uint32_t` under `%d`. -/
def format_d (n : Nat) : String :=
  if n % 2 ^ 32 < 2 ^ 31 then Nat.repr (n % 2 ^ 32) else "-" ++ Nat.repr (2 ^ 32 - n % 2 ^ 32)

/-- The size of a pointer, in bytes. -/
def sizeof_pointer : Nat := 8

/-- The value of `sizeof(TSElQuery)`: one pointer. -/
def sizeof_TSElQuery : Nat := sizeof_pointer

/-- The value of `sizeof(TSElQueryCursor)`: two pointers. -/
def sizeof_TSElQueryCursor : Nat := 2 * sizeof_pointer

/-! ## `qcursor.c` and `query.c`: finalizers, predicates, extraction -/

/-- The finalizer `tsel_query_fin` of `query.c`: `ts_query_delete(query->query)`
then `free(query)`.  Nothing is defined when `ptr` holds no live `TSElQuery`:
the read of `query->query` is then a read of freed or foreign memory. -/
def tsel_query_fin (w : World) (ptr : Ptr) : Option World :=
  match w.read ptr with
  | some (.query query) => some ((w.call (Call.ts_query_delete query.query)).free ptr)
  | _ => none

/-- The finalizer `tsel_qcursor_fin` of `qcursor.c`:
`ts_query_cursor_delete(cursor->cursor)` then `free(cursor)`. -/
def tsel_qcursor_fin (w : World) (ptr : Ptr) : Option World :=
  match w.read ptr with
  | some (.qcursor cursor) => some ((w.call (Call.ts_query_cursor_delete cursor.cursor)).free ptr)
  | _ => none

/-- The predicate `tsel_qcursor_p` of `qcursor.c`. -/
def tsel_qcursor_p (H : Host) (w : World) (obj : EmacsValue) : World × Bool :=
  if !tsel_check_record_type w "tree-sitter-query-cursor" obj 1 then (w, false) else
  -- Get the ptr field
  match tsel_record_get_field w obj 1 with
  | none => (w, false)
  | some user_ptr =>
    -- Make sure it's a user pointer
    match env_funcall H w "user-ptrp" [user_ptr] with
    | (w, r) =>
      if !env_eq w r tsel_Qt || tsel_pending_nonlocal_exit w then (w, false) else
      -- Check the finalizer
      match env_get_user_finalizer w user_ptr with
      | (w, fin) => (w, !tsel_pending_nonlocal_exit w && fin == some Finalizer.tsel_qcursor_fin)

/-- The extraction `tsel_extract_qcursor` of `qcursor.c`: the second component is
the pointer stored through `cursor` when the function returns `true`. -/
def tsel_extract_qcursor (H : Host) (w : World) (obj : EmacsValue) : World × Option Ptr :=
  match tsel_qcursor_p H w obj with
  | (w, false) => (tsel_signal_wrong_type w "tree-sitter-query-cursor-p" obj, none)
  | (w, true) =>
    -- Get the ptr field
    match tsel_record_get_field w obj 1 with
    | none => (w, none)
    | some user_ptr =>
      -- Get the raw pointer
      match env_get_user_ptr w user_ptr with
      | (w, ptr) => if tsel_pending_nonlocal_exit w then (w, none) else (w, some ptr)

/-- The predicate `tsel_query_p` of `query.c`. -/
def tsel_query_p (H : Host) (w : World) (obj : EmacsValue) : World × Bool :=
  if !tsel_check_record_type w "tree-sitter-query" obj 1 then (w, false) else
  -- Get the ptr field
  match tsel_record_get_field w obj 1 with
  | none => (w, false)
  | some user_ptr =>
    -- Make sure it's a user pointer
    match env_funcall H w "user-ptrp" [user_ptr] with
    | (w, r) =>
      if !env_eq w r tsel_Qt || tsel_pending_nonlocal_exit w then (w, false) else
      -- Check the finalizer
      match env_get_user_finalizer w user_ptr with
      | (w, fin) => (w, !tsel_pending_nonlocal_exit w && fin == some Finalizer.tsel_query_fin)

/-- The extraction `tsel_extract_query` of `query.c`. -/
def tsel_extract_query (H : Host) (w : World) (obj : EmacsValue) : World × Option Ptr :=
  match tsel_query_p H w obj with
  | (w, false) => (tsel_signal_wrong_type w "tree-sitter-query-p" obj, none)
  | (w, true) =>
    -- Get the ptr field
    match tsel_record_get_field w obj 1 with
    | none => (w, none)
    | some user_ptr =>
      -- Get the raw pointer
      match env_get_user_ptr w user_ptr with
      | (w, ptr) => if tsel_pending_nonlocal_exit w then (w, none) else (w, some ptr)

/-! ## `language.c` -/

/-- The bytes of a C string literal, terminator included. -/
def cstring (s : String) : List Nat :=
  s.toList.map Char.toNat ++ [0]

/-- Whether `strncmp(a, b, n) == 0`; a byte past the end of a list reads as the
terminator. -/
def strncmp_eq : List Nat → List Nat → Nat → Bool
  | _, _, 0 => true
  | a, b, n + 1 =>
    if a.headD 0 ≠ b.headD 0 then false
    else if a.headD 0 = 0 then true
    else strncmp_eq a.tail b.tail n

/-- The bytes `ptr->tag` denotes for a block read as a `TSElLanguage`. -/
def Block.tag : Block → Option (List Nat)
  | .language l => some l.tag
  | .bytes b => some b
  | _ => none

/-- The predicate `tsel_language_p` of `language.c`.  Nothing is defined when the
user pointer's address holds no block to read a tag from. -/
def tsel_language_p (H : Host) (w : World) (obj : EmacsValue) : Option (World × Bool) :=
  -- Ensure the pointer is wrapped in the proper Emacs structure type
  match env_funcall H w "tree-sitter-language-p" [obj] with
  | (w, r) =>
    if !env_eq w r tsel_Qt || tsel_pending_nonlocal_exit w then some (w, false) else
    -- Extract the "ptr" field and make sure it's a user pointer
    match env_funcall H w "tree-sitter-language-ptr" [obj] with
    | (w, user_ptr) =>
      match env_funcall H w "user-ptrp" [user_ptr] with
      | (w, r) =>
        if !env_eq w r tsel_Qt || tsel_pending_nonlocal_exit w then some (w, false) else
        -- Get the raw pointer
        match env_get_user_ptr w user_ptr with
        | (w, ptr) =>
          if ptr == 0 || tsel_pending_nonlocal_exit w then some (w, false) else
          -- Check the type tag in the struct
          match (w.read ptr).bind Block.tag with
          | none => none
          | some tag => some (w, strncmp_eq tag (cstring "TSLanguage") 11)

/-- The accessor `tsel_language_get_ptr` of `language.c`; `0` is its `NULL`. -/
def tsel_language_get_ptr (H : Host) (w : World) (obj : EmacsValue) : Option (World × Ptr) :=
  match tsel_language_p H w obj with
  | none => none
  | some (w, false) => some (w, 0)
  | some (w, true) =>
    match env_funcall H w "tree-sitter-language-ptr" [obj] with
    | (w, user_ptr) =>
      match env_get_user_ptr w user_ptr with
      | (w, ptr) => if tsel_pending_nonlocal_exit w then some (w, 0) else some (w, ptr)

/-- Modelled from the spec: `tsel_extract_language`, absent from `language.c`: the
`TSElLanguage *` of a language handle, anything else is a wrong-type condition
naming `tree-sitter-language-p`. -/
def tsel_extract_language (H : Host) (w : World) (obj : EmacsValue) :
    Option (World × Option Ptr) :=
  match tsel_language_get_ptr H w obj with
  | none => none
  | some (w, ptr) =>
    if ptr == 0 then some (tsel_signal_wrong_type w "tree-sitter-language-p" obj, none)
    else some (w, some ptr)

/-! ## `query.c`: module functions -/

/-- What `ts_query_new` hands back: the query (`0` on failure) and what it wrote
to `error_type` and `error_offset`. -/
structure QueryNewResult where
  query : Ptr
  err : TSQueryError
  error_offset : Nat
  deriving DecidableEq, Repr

/-- The table `errtype` of `tsel_query_new`. -/
def errtype : List String := ["None", "Syntax", "NodeType", "Field", "Capture"]

/-- The function `tsel_query_new` of `query.c`.  `native` is the outcome of
`ts_query_new` and `wrapper` that of `malloc`.  A `TSEL_SUBR_EXTRACT` whose
extraction fails returns `nil` at once. -/
def tsel_query_new (H : Host) (native : QueryNewResult) (wrapper : Ptr) (w : World)
    (arg0 arg1 : EmacsValue) : Option (World × EmacsValue) :=
  match tsel_extract_language H w arg0 with
  | none => none
  | some (w, none) => some (w, tsel_Qnil)
  | some (w, some lang) =>
  match tsel_extract_string w arg1 with
  | (w, none) => some (w, tsel_Qnil)
  | (w, some source) =>
  match w.read lang with
  | some (.language l) =>
    let w := w.call (Call.ts_query_new l.ptr source (strlen source))
    let query := native.query
    let w := w.malloc sizeof_TSElQuery wrapper
    if wrapper == 0 || query == 0 then
      let w := if wrapper != 0 then w.free wrapper else w
      let w := if query != 0 then w.call (Call.ts_query_delete query) else w
      let error :=
        if query != 0 then
          " TSQueryError:" ++ errtype.getD native.err.toNat "" ++ ",ErrorOffset:"
            ++ format_d native.error_offset ++ "."
        else ""
      let errinfo := "Initialization failed!" ++ error
      some (tsel_signal_error w errinfo, tsel_Qnil)
    else
      let w := w.write wrapper (Block.query { query := query })
      match env_make_user_ptr H w Finalizer.tsel_query_fin wrapper with
      | (w, new_query) =>
        match env_funcall H w "tree-sitter-query--create" [new_query] with
        | (w, res) =>
          if tsel_pending_nonlocal_exit w then
            match tsel_query_fin w wrapper with
            | none => none
            | some w => some (tsel_signal_error w "Initialization failed", tsel_Qnil)
          else some (w, res)
  | _ => none

/-- The function `tsel_query_start_byte_for_pattern` of `query.c`.  `native` is
what `ts_query_start_byte_for_pattern` returns; it is stored in a `uint32_t`
and `byte+1` is computed in that type. -/
def tsel_query_start_byte_for_pattern (H : Host) (native : Nat) (w : World)
    (arg0 arg1 : EmacsValue) : Option (World × EmacsValue) :=
  match tsel_extract_query H w arg0 with
  | (w, none) => some (w, tsel_Qnil)
  | (w, some q) =>
  match tsel_extract_integer w arg1 with
  | (w, none) => some (w, tsel_Qnil)
  | (w, some id) =>
  match w.read q with
  | some (.query query) =>
    let w := w.call (Call.ts_query_start_byte_for_pattern query.query (to_uint32 id))
    let byte := native % 2 ^ 32
    some (w, env_make_integer w (((byte + 1) % 2 ^ 32 : Nat) : Int))
  | _ => none

/-! ## `qcursor.c`: module functions -/

/-- The function `tsel_query_cursor_new` of `qcursor.c`.  `wrapper` is the
outcome of `malloc` and `qcursor` that of `ts_query_cursor_new`. -/
def tsel_query_cursor_new (H : Host) (wrapper qcursor : Ptr) (w : World) :
    Option (World × EmacsValue) :=
  let w := w.malloc sizeof_TSElQuery wrapper
  let w := w.call Call.ts_query_cursor_new
  if wrapper == 0 || qcursor == 0 then
    let w := if wrapper != 0 then w.free wrapper else w
    let w := if qcursor != 0 then w.call (Call.ts_query_cursor_delete qcursor) else w
    some (tsel_signal_error w "Initialization failed!", tsel_Qnil)
  else
    let w := w.write wrapper (Block.qcursor { cursor := qcursor, node := none })
    match env_make_user_ptr H w Finalizer.tsel_qcursor_fin wrapper with
    | (w, new_querycursor) =>
      match env_funcall H w "tree-sitter-query-cursor--create" [new_querycursor] with
      | (w, res) =>
        if tsel_pending_nonlocal_exit w then
          match tsel_qcursor_fin w wrapper with
          | none => none
          | some w => some (tsel_signal_error w "Initialization failed", tsel_Qnil)
        else some (w, res)

/-- The function `tsel_query_cursor_exec` of `qcursor.c`. -/
def tsel_query_cursor_exec (H : Host) (w : World) (arg0 arg1 arg2 : EmacsValue) :
    Option (World × EmacsValue) :=
  match tsel_extract_qcursor H w arg0 with
  | (w, none) => some (w, tsel_Qnil)
  | (w, some qcursor) =>
  match tsel_extract_query H w arg1 with
  | (w, none) => some (w, tsel_Qnil)
  | (w, some query) =>
  match tsel_extract_node H w arg2 with
  | (w, none) => some (w, tsel_Qnil)
  | (w, some node) =>
  -- qcursor->node = node;
  match w.read qcursor with
  | some (.qcursor c) =>
    let w := w.write qcursor (Block.qcursor { c with node := some node })
    -- ts_query_cursor_exec(qcursor->cursor,query->query,node->node);
    match w.read qcursor, w.read query, w.read node with
    | some (.qcursor c), some (.query q), some (.node n) =>
      some (w.call (Call.ts_query_cursor_exec c.cursor q.query n.node), tsel_Qnil)
    | _, _, _ => none
  | _ => none

/-- The tail shared by `tsel_query_cursor_next_capture` and
`tsel_query_cursor_next_match` once the native call has produced `match`: the
node of `match.captures` re-homed under `qcursor->node->tree`, the four
arguments, and the call of `tree-sitter-query-match--create`. -/
def tsel_query_match_create (H : Host) (w : World) (c : TSElQueryCursor)
    (m : TSQueryMatch) : Option (World × EmacsValue) :=
  match m.captures.head?, c.node.bind w.read with
  | some capture, some (.node n) =>
    let node := tsel_node_emacs_move H w capture.node n.tree
    let func_args := [env_make_integer w m.capture_count, node, env_make_integer w m.id,
      env_make_integer w m.pattern_index]
    some (env_funcall H w "tree-sitter-query-match--create" func_args)
  | _, _ => none

/-- The function `tsel_query_cursor_next_capture` of `qcursor.c`.  `native` is
the outcome of `ts_query_cursor_next_capture`: nothing when it returns `false`,
else the match and the capture index it wrote. -/
def tsel_query_cursor_next_capture (H : Host) (native : Option (TSQueryMatch × Nat))
    (w : World) (arg0 : EmacsValue) : Option (World × EmacsValue) :=
  match tsel_extract_qcursor H w arg0 with
  | (w, none) => some (w, tsel_Qnil)
  | (w, some qcursor) =>
  match w.read qcursor with
  | some (.qcursor c) =>
    let w := w.call (Call.ts_query_cursor_next_capture c.cursor)
    match native with
    | none => some (w, tsel_Qnil)
    | some (m, _index) => tsel_query_match_create H w c m
  | _ => none

/-- The function `tsel_query_cursor_next_match` of `qcursor.c`.  `native` is the
outcome of `ts_query_cursor_next_match`: nothing when it returns `false`, else
the match it wrote. -/
def tsel_query_cursor_next_match (H : Host) (native : Option TSQueryMatch)
    (w : World) (arg0 : EmacsValue) : Option (World × EmacsValue) :=
  match tsel_extract_qcursor H w arg0 with
  | (w, none) => some (w, tsel_Qnil)
  | (w, some qcursor) =>
  match w.read qcursor with
  | some (.qcursor c) =>
    let w := w.call (Call.ts_query_cursor_next_match c.cursor)
    match native with
    | none => some (w, tsel_Qnil)
    | some m => tsel_query_match_create H w c m
  | _ => none

/-- The function `tsel_query_cursor_remove_match` of `qcursor.c`. -/
def tsel_query_cursor_remove_match (H : Host) (w : World) (arg0 arg1 : EmacsValue) :
    Option (World × EmacsValue) :=
  match tsel_extract_qcursor H w arg0 with
  | (w, none) => some (w, tsel_Qnil)
  | (w, some qcursor) =>
  match tsel_extract_integer w arg1 with
  | (w, none) => some (w, tsel_Qnil)
  | (w, some id) =>
  match w.read qcursor with
  | some (.qcursor c) =>
    some (w.call (Call.ts_query_cursor_remove_match c.cursor (to_uint32 id)), tsel_Qnil)
  | _ => none

/-- The function `tsel_query_cursor_set_byte_range` of `qcursor.c`: `start-1` and
`end-1` are computed on `intmax_t` and converted to the `uint32_t` parameters. -/
def tsel_query_cursor_set_byte_range (H : Host) (w : World) (arg0 arg1 arg2 : EmacsValue) :
    Option (World × EmacsValue) :=
  match tsel_extract_qcursor H w arg0 with
  | (w, none) => some (w, tsel_Qnil)
  | (w, some qcursor) =>
  match tsel_extract_integer w arg1 with
  | (w, none) => some (w, tsel_Qnil)
  | (w, some start) =>
  match tsel_extract_integer w arg2 with
  | (w, none) => some (w, tsel_Qnil)
  | (w, some «end») =>
  match w.read qcursor with
  | some (.qcursor c) =>
    some (w.call (Call.ts_query_cursor_set_byte_range c.cursor (to_uint32 (start - 1))
      (to_uint32 («end» - 1))), tsel_Qnil)
  | _ => none

/-- The function `tsel_query_cursor_set_point_range` of `qcursor.c`.  Both
`TSEL_SUBR_EXTRACT(point, …)` lines of the source read `args[1]`; `args[2]` is
not read. -/
def tsel_query_cursor_set_point_range (H : Host) (w : World) (arg0 arg1 _arg2 : EmacsValue) :
    Option (World × EmacsValue) :=
  match tsel_extract_qcursor H w arg0 with
  | (w, none) => some (w, tsel_Qnil)
  | (w, some qcursor) =>
  match tsel_extract_point H w arg1 with
  | (w, none) => some (w, tsel_Qnil)
  | (w, some pt1) =>
  match tsel_extract_point H w arg1 with
  | (w, none) => some (w, tsel_Qnil)
  | (w, some pt2) =>
  match w.read qcursor with
  | some (.qcursor c) =>
    some (w.call (Call.ts_query_cursor_set_point_range c.cursor pt1 pt2), tsel_Qnil)
  | _ => none

/-! ## Reclamation by the host -/

/-- The host runs the finalizer registered for one user pointer. -/
def run_finalizer (w : World) (u : Finalizer × Ptr) : Option World :=
  match u.1 with
  | .tsel_query_fin => tsel_query_fin w u.2
  | .tsel_qcursor_fin => tsel_qcursor_fin w u.2
  | .foreign _ => some w

/-- The host reclaims every user pointer it was handed, in creation order,
running each registered finalizer once. -/
def host_reclaim_all (w : World) : Option World :=
  w.user_ptrs.foldlM run_finalizer { w with user_ptrs := [] }

/-! ## Handles and a concrete host -/

/-- The record a `tree-sitter-query-cursor` handle is: the type tag and, in
field 1, a user pointer to the wrapper carrying `tsel_qcursor_fin`. -/
def qcursor_handle (p : Ptr) : EmacsValue :=
  .record [.symbol "tree-sitter-query-cursor", .user_ptr (some Finalizer.tsel_qcursor_fin) p]

/-- The record a `tree-sitter-query` handle is. -/
def query_handle (p : Ptr) : EmacsValue :=
  .record [.symbol "tree-sitter-query", .user_ptr (some Finalizer.tsel_query_fin) p]

/-- The world with `s` as its pending signal. -/
def World.signalled (w : World) (s : Signal) : World :=
  { w with pending := some s }

/-- Modelled from the spec: the Lisp half of the package, absent from the sources:
the record constructors `…--create`, which build a record of the handle's type
from their arguments, and the predicate and `ptr` accessor of
`tree-sitter-language`.  Any other function is void. -/
def lisp_funcall (f : String) (args : List EmacsValue) : Except Signal EmacsValue :=
  if f = "tree-sitter-query--create" then
    .ok (.record (.symbol "tree-sitter-query" :: args))
  else if f = "tree-sitter-query-cursor--create" then
    .ok (.record (.symbol "tree-sitter-query-cursor" :: args))
  else if f = "tree-sitter-query-match--create" then
    .ok (.record (.symbol "tree-sitter-query-match" :: args))
  else if f = "tree-sitter-language-p" then
    match args with
    | [.record (.symbol "tree-sitter-language" :: _)] => .ok tsel_Qt
    | _ => .ok tsel_Qnil
  else if f = "tree-sitter-language-ptr" then
    match args with
    | [.record (.symbol "tree-sitter-language" :: ptr :: _)] => .ok ptr
    | _ => .error (Signal.host 2)
  else .error (Signal.host 1)

/-- Modelled from the spec: a host for concrete runs: the Lisp functions above, a
`make_user_ptr` that succeeds, node handles that are `tree-sitter-node` records
around a user pointer, points that are `tree-sitter-point` records of a row and a
column, and a re-homed node that records the native node and the tree. -/
def lisp_host : Host where
  funcall := lisp_funcall
  make_user_ptr := none
  node_ptr := fun v =>
    match v with
    | .record [.symbol "tree-sitter-node", .user_ptr _ p] => some p
    | _ => none
  point := fun v =>
    match v with
    | .record [.symbol "tree-sitter-point", .integer r, .integer c] =>
      some { row := r.toNat, column := c.toNat }
    | _ => none
  node_emacs_move := fun n tree =>
    .record [.symbol "tree-sitter-node", .integer n.id, .integer tree]

/-- The host above with handle constructors that raise: `tree-sitter-query--create`
and `tree-sitter-query-cursor--create` signal, every other function is as above. -/
def failing_host : Host :=
  { lisp_host with
    funcall := fun f args =>
      if f = "tree-sitter-query--create" ∨ f = "tree-sitter-query-cursor--create" then
        .error (Signal.host 3)
      else lisp_funcall f args }

/-- A world with nothing pending, nothing allocated and nothing called. -/
def World.empty : World :=
  { pending := none, heap := [], user_ptrs := [], trace := [] }

/-- The record a `tree-sitter-language` handle is in the concrete host: the type
tag and, in field 1, a user pointer to the `TSElLanguage`. -/
def language_handle (p : Ptr) : EmacsValue :=
  .record [.symbol "tree-sitter-language", .user_ptr none p]

/-- The record a point is in the concrete host. -/
def point_value (row column : Int) : EmacsValue :=
  .record [.symbol "tree-sitter-point", .integer row, .integer column]

/-- A world for concrete runs: a language struct at 8, a node struct at 24 (native
node 7 of the tree at 40), a cursor wrapper at 48 around the native cursor 64,
not yet executed, and a query wrapper at 80 around the native query 96. -/
def World.sample : World :=
  { pending := none
    heap :=
      [(8, { live := true, val := Block.language { tag := cstring "TSLanguage", ptr := 1000 } }),
       (24, { live := true, val := Block.node { node := { id := 7 }, tree := 40 } }),
       (48, { live := true, val := Block.qcursor { cursor := 64, node := none } }),
       (80, { live := true, val := Block.query { query := 96 } })]
    user_ptrs := [(Finalizer.tsel_qcursor_fin, 48), (Finalizer.tsel_query_fin, 80)]
    trace := [] }

/-- A world that holds a language struct at 8 and nothing else. -/
def World.grammar : World :=
  { pending := none
    heap :=
      [(8, { live := true, val := Block.language { tag := cstring "TSLanguage", ptr := 1000 } })]
    user_ptrs := []
    trace := [] }

/-- The sample world after the cursor at 48 was executed on the node at 24. -/
def World.bound : World :=
  { pending := none
    heap :=
      [(8, { live := true, val := Block.language { tag := cstring "TSLanguage", ptr := 1000 } }),
       (24, { live := true, val := Block.node { node := { id := 7 }, tree := 40 } }),
       (48, { live := true, val := Block.qcursor { cursor := 64, node := some 24 } }),
       (80, { live := true, val := Block.query { query := 96 } })]
    user_ptrs := [(Finalizer.tsel_qcursor_fin, 48), (Finalizer.tsel_query_fin, 80)]
    trace := [Call.ts_query_cursor_exec 64 96 { id := 7 }] }

/-- A native match for concrete runs: match 5 of pattern 1 with two captures, on
the native nodes 70 and 71. -/
def TSQueryMatch.sample : TSQueryMatch :=
  { id := 5, pattern_index := 1, capture_count := 2,
    captures := [{ node := { id := 70 }, index := 0 }, { node := { id := 71 }, index := 1 }] }

/-- The world after `make_user_ptr` registered `fin` on `p` and the host then
raised `s`. -/
def World.registered_then_raised (w : World) (fin : Finalizer) (p : Ptr) (s : Signal) : World :=
  { w with pending := some s, user_ptrs := w.user_ptrs ++ [(fin, p)] }

/-- The offset of the field `cursor` in `TSElQueryCursor`, its first member. -/
def offsetof_cursor : Nat := 0

/-- The offset of the field `node` in `TSElQueryCursor`: it follows the pointer
`cursor`. -/
def offsetof_node : Nat := sizeof_pointer

/-- Whether storing a pointer at `offset` stays inside a block of `bytes` bytes. -/
def pointer_store_inside (bytes offset : Nat) : Bool :=
  decide (offset + sizeof_pointer ≤ bytes)

/-- The size that was asked of `malloc` for the block at `p`: the byte count of
the latest `malloc` in the trace that returned `p`. -/
def World.requested (w : World) (p : Ptr) : Option Nat :=
  w.trace.reverse.findSome? (fun c =>
    match c with
    | .malloc bytes q => if q = p then some bytes else none
    | _ => none)

/-- A world for concrete runs of the language predicate: the language struct at
8 and, at 200, a struct of another producer whose first bytes spell
`TSLanguage` and its terminator. -/
def World.impostor : World :=
  { pending := none
    heap :=
      [(8, { live := true, val := Block.language { tag := cstring "TSLanguage", ptr := 1000 } }),
       (200, { live := true, val := Block.bytes (cstring "TSLanguage" ++ [1, 2, 3]) })]
    user_ptrs := []
    trace := [] }

/-- A `tree-sitter-language` record around a user pointer with the finalizer
`fin` and the address `p`. -/
def language_record (fin : Option Finalizer) (p : Ptr) : EmacsValue :=
  .record [.symbol "tree-sitter-language", .user_ptr fin p]

/-! ## Lemmas on validation -/

theorem tsel_qcursor_p_spec (H : Host) (w : World) (v : EmacsValue) :
    (tsel_qcursor_p H w v).1 = w ∧ ((tsel_qcursor_p H w v).2 = true ↔
      (w.pending = none ∧ ∃ p, v = qcursor_handle p)) := by
  rcases hp : w.pending with _ | s
  · cases v with
    | record slots =>
      match slots with
      | [] => simp [tsel_qcursor_p, tsel_check_record_type, qcursor_handle, hp]
      | [a] => simp [tsel_qcursor_p, tsel_check_record_type, qcursor_handle, hp]
      | [a, b] =>
        cases a <;> cases b <;>
          simp [tsel_qcursor_p, tsel_check_record_type, env_eq, tsel_record_get_field,
            env_funcall, tsel_Qt, tsel_Qnil, tsel_pending_nonlocal_exit,
            env_get_user_finalizer, qcursor_handle, hp]
        all_goals (split <;> simp_all)
      | a :: b :: c :: rest =>
        simp [tsel_qcursor_p, tsel_check_record_type, qcursor_handle, hp]
    | _ => simp [tsel_qcursor_p, tsel_check_record_type, qcursor_handle, hp]
  · simp [tsel_qcursor_p, tsel_check_record_type, hp]

theorem tsel_query_p_spec (H : Host) (w : World) (v : EmacsValue) :
    (tsel_query_p H w v).1 = w ∧ ((tsel_query_p H w v).2 = true ↔
      (w.pending = none ∧ ∃ p, v = query_handle p)) := by
  rcases hp : w.pending with _ | s
  · cases v with
    | record slots =>
      match slots with
      | [] => simp [tsel_query_p, tsel_check_record_type, query_handle, hp]
      | [a] => simp [tsel_query_p, tsel_check_record_type, query_handle, hp]
      | [a, b] =>
        cases a <;> cases b <;>
          simp [tsel_query_p, tsel_check_record_type, env_eq, tsel_record_get_field,
            env_funcall, tsel_Qt, tsel_Qnil, tsel_pending_nonlocal_exit,
            env_get_user_finalizer, query_handle, hp]
        all_goals (split <;> simp_all)
      | a :: b :: c :: rest =>
        simp [tsel_query_p, tsel_check_record_type, query_handle, hp]
    | _ => simp [tsel_query_p, tsel_check_record_type, query_handle, hp]
  · simp [tsel_query_p, tsel_check_record_type, hp]

theorem tsel_extract_qcursor_valid (H : Host) (w : World) (p : Ptr) (hp : w.pending = none) :
    tsel_extract_qcursor H w (qcursor_handle p) = (w, some p) := by
  simp [tsel_extract_qcursor, tsel_qcursor_p, tsel_check_record_type, env_eq,
    tsel_record_get_field, env_funcall, tsel_Qt, tsel_pending_nonlocal_exit,
    env_get_user_finalizer, env_get_user_ptr, qcursor_handle, hp]

theorem tsel_extract_query_valid (H : Host) (w : World) (p : Ptr) (hp : w.pending = none) :
    tsel_extract_query H w (query_handle p) = (w, some p) := by
  simp [tsel_extract_query, tsel_query_p, tsel_check_record_type, env_eq,
    tsel_record_get_field, env_funcall, tsel_Qt, tsel_pending_nonlocal_exit,
    env_get_user_finalizer, env_get_user_ptr, query_handle, hp]

theorem tsel_extract_qcursor_invalid (H : Host) (w : World) (v : EmacsValue)
    (hp : w.pending = none) (hv : (tsel_qcursor_p H w v).2 = false) :
    tsel_extract_qcursor H w v
      = (w.signalled (Signal.wrong_type "tree-sitter-query-cursor-p" v), none) := by
  have h1 := (tsel_qcursor_p_spec H w v).1
  have hpair : tsel_qcursor_p H w v = (w, false) := Prod.ext h1 hv
  simp [tsel_extract_qcursor, hpair, tsel_signal_wrong_type, env_signal, World.signalled, hp]

theorem tsel_extract_qcursor_iff (H : Host) (w : World) (v : EmacsValue) (p : Ptr) :
    (tsel_extract_qcursor H w v).2 = some p ↔ (w.pending = none ∧ v = qcursor_handle p) := by
  constructor
  · intro h
    rcases hb : (tsel_qcursor_p H w v).2 with _ | _
    · have hpair : tsel_qcursor_p H w v = (w, false) :=
        Prod.ext (tsel_qcursor_p_spec H w v).1 hb
      simp [tsel_extract_qcursor, hpair] at h
    · obtain ⟨hp, q, rfl⟩ := (tsel_qcursor_p_spec H w v).2.1 hb
      rw [tsel_extract_qcursor_valid H w q hp] at h
      simp at h
      subst h
      exact ⟨hp, rfl⟩
  · rintro ⟨hp, rfl⟩
    rw [tsel_extract_qcursor_valid H w p hp]

theorem tsel_extract_query_iff (H : Host) (w : World) (v : EmacsValue) (p : Ptr) :
    (tsel_extract_query H w v).2 = some p ↔ (w.pending = none ∧ v = query_handle p) := by
  constructor
  · intro h
    rcases hb : (tsel_query_p H w v).2 with _ | _
    · have hpair : tsel_query_p H w v = (w, false) :=
        Prod.ext (tsel_query_p_spec H w v).1 hb
      simp [tsel_extract_query, hpair] at h
    · obtain ⟨hp, q, rfl⟩ := (tsel_query_p_spec H w v).2.1 hb
      rw [tsel_extract_query_valid H w q hp] at h
      simp at h
      subst h
      exact ⟨hp, rfl⟩
  · rintro ⟨hp, rfl⟩
    rw [tsel_extract_query_valid H w p hp]

/-! ## C2, C3: validation of handles -/

/-- C2: when the cursor argument `v` fails `tsel_qcursor_p`, each of exec,
nextMatch, nextCapture, removeMatch, setByteRange and setPointRange, whatever
its other arguments and whatever the native library would have answered,
returns `nil` in a world that differs from the entry world only by the pending
wrong-type condition naming `tree-sitter-query-cursor-p` with `v`: the call
trace is unchanged, so no `ts_query_cursor_*` function was called. -/
theorem wrong_type_cursor_argument (H : Host) (w : World) (v a1 a2 : EmacsValue)
    (m : Option TSQueryMatch) (c : Option (TSQueryMatch × Nat))
    (hw : w.pending = none) (hv : (tsel_qcursor_p H w v).2 = false) :
    tsel_query_cursor_exec H w v a1 a2
      = some (w.signalled (Signal.wrong_type "tree-sitter-query-cursor-p" v), tsel_Qnil) ∧
    tsel_query_cursor_next_match H m w v
      = some (w.signalled (Signal.wrong_type "tree-sitter-query-cursor-p" v), tsel_Qnil) ∧
    tsel_query_cursor_next_capture H c w v
      = some (w.signalled (Signal.wrong_type "tree-sitter-query-cursor-p" v), tsel_Qnil) ∧
    tsel_query_cursor_remove_match H w v a1
      = some (w.signalled (Signal.wrong_type "tree-sitter-query-cursor-p" v), tsel_Qnil) ∧
    tsel_query_cursor_set_byte_range H w v a1 a2
      = some (w.signalled (Signal.wrong_type "tree-sitter-query-cursor-p" v), tsel_Qnil) ∧
    tsel_query_cursor_set_point_range H w v a1 a2
      = some (w.signalled (Signal.wrong_type "tree-sitter-query-cursor-p" v), tsel_Qnil) ∧
    (w.signalled (Signal.wrong_type "tree-sitter-query-cursor-p" v)).trace = w.trace ∧
    (w.signalled (Signal.wrong_type "tree-sitter-query-cursor-p" v)).heap = w.heap := by
  have he := tsel_extract_qcursor_invalid H w v hw hv
  refine ⟨?_, ?_, ?_, ?_, ?_, ?_, rfl, rfl⟩
  · simp [tsel_query_cursor_exec, he]
  · simp [tsel_query_cursor_next_match, he]
  · simp [tsel_query_cursor_next_capture, he]
  · simp [tsel_query_cursor_remove_match, he]
  · simp [tsel_query_cursor_set_byte_range, he]
  · simp [tsel_query_cursor_set_point_range, he]

/-- Witness of C2: a query handle passed where a cursor is expected. -/
theorem wrong_type_cursor_argument_witness :
    World.empty.pending = none ∧
    (tsel_qcursor_p lisp_host World.empty (query_handle 16)).2 = false ∧
    tsel_query_cursor_next_match lisp_host none World.empty (query_handle 16)
      = some (World.empty.signalled
          (Signal.wrong_type "tree-sitter-query-cursor-p" (query_handle 16)), tsel_Qnil) :=
  ⟨rfl, by decide,
    (wrong_type_cursor_argument lisp_host World.empty (query_handle 16) tsel_Qnil tsel_Qnil
      none none rfl (by decide)).2.1⟩

/-- C3: `tsel_extract_qcursor` (resp. `tsel_extract_query`) yields a pointer `p`
exactly when nothing is pending and the value is the two-slot record tagged
`tree-sitter-query-cursor` (resp. `tree-sitter-query`) whose field 1 is a user
pointer to `p` with finalizer `tsel_qcursor_fin` (resp. `tsel_query_fin`); a
record of the right shape whose user pointer carries any other finalizer, or
none, is rejected; and no value passes both `tsel_qcursor_p` and
`tsel_query_p`. -/
theorem handle_validation_double_check (H : Host) (w : World) (v : EmacsValue) :
    (∀ p, (tsel_extract_qcursor H w v).2 = some p ↔
      (w.pending = none ∧ v = EmacsValue.record [EmacsValue.symbol "tree-sitter-query-cursor",
        EmacsValue.user_ptr (some Finalizer.tsel_qcursor_fin) p])) ∧
    (∀ p, (tsel_extract_query H w v).2 = some p ↔
      (w.pending = none ∧ v = EmacsValue.record [EmacsValue.symbol "tree-sitter-query",
        EmacsValue.user_ptr (some Finalizer.tsel_query_fin) p])) ∧
    (∀ fin p, fin ≠ some Finalizer.tsel_qcursor_fin →
      (tsel_qcursor_p H w (EmacsValue.record [EmacsValue.symbol "tree-sitter-query-cursor",
        EmacsValue.user_ptr fin p])).2 = false ∧
      (tsel_extract_qcursor H w (EmacsValue.record [EmacsValue.symbol "tree-sitter-query-cursor",
        EmacsValue.user_ptr fin p])).2 = none) ∧
    (∀ fin p, fin ≠ some Finalizer.tsel_query_fin →
      (tsel_query_p H w (EmacsValue.record [EmacsValue.symbol "tree-sitter-query",
        EmacsValue.user_ptr fin p])).2 = false ∧
      (tsel_extract_query H w (EmacsValue.record [EmacsValue.symbol "tree-sitter-query",
        EmacsValue.user_ptr fin p])).2 = none) ∧
    ¬ ((tsel_qcursor_p H w v).2 = true ∧ (tsel_query_p H w v).2 = true) := by
  refine ⟨fun p => tsel_extract_qcursor_iff H w v p, fun p => tsel_extract_query_iff H w v p,
    ?_, ?_, ?_⟩
  · intro fin p hfin
    have hb : (tsel_qcursor_p H w (EmacsValue.record
        [EmacsValue.symbol "tree-sitter-query-cursor", EmacsValue.user_ptr fin p])).2 = false := by
      rw [Bool.eq_false_iff]
      intro h
      obtain ⟨_, q, hq⟩ := (tsel_qcursor_p_spec H w _).2.1 h
      simp [qcursor_handle] at hq
      exact hfin hq.1
    refine ⟨hb, ?_⟩
    have hpair : tsel_qcursor_p H w (EmacsValue.record
        [EmacsValue.symbol "tree-sitter-query-cursor", EmacsValue.user_ptr fin p]) = (w, false) :=
      Prod.ext (tsel_qcursor_p_spec H w _).1 hb
    simp [tsel_extract_qcursor, hpair]
  · intro fin p hfin
    have hb : (tsel_query_p H w (EmacsValue.record
        [EmacsValue.symbol "tree-sitter-query", EmacsValue.user_ptr fin p])).2 = false := by
      rw [Bool.eq_false_iff]
      intro h
      obtain ⟨_, q, hq⟩ := (tsel_query_p_spec H w _).2.1 h
      simp [query_handle] at hq
      exact hfin hq.1
    refine ⟨hb, ?_⟩
    have hpair : tsel_query_p H w (EmacsValue.record
        [EmacsValue.symbol "tree-sitter-query", EmacsValue.user_ptr fin p]) = (w, false) :=
      Prod.ext (tsel_query_p_spec H w _).1 hb
    simp [tsel_extract_query, hpair]
  · rintro ⟨hc, hq⟩
    obtain ⟨_, p, hp⟩ := (tsel_qcursor_p_spec H w v).2.1 hc
    obtain ⟨_, q, hq⟩ := (tsel_query_p_spec H w v).2.1 hq
    rw [hp] at hq
    simp [qcursor_handle, query_handle] at hq

/-- Witness of C3: a cursor-shaped record around a query's user pointer is
rejected, and the same user pointer in a query record is accepted. -/
theorem handle_validation_double_check_witness :
    (tsel_extract_qcursor lisp_host World.empty (EmacsValue.record
      [EmacsValue.symbol "tree-sitter-query-cursor",
        EmacsValue.user_ptr (some Finalizer.tsel_query_fin) 16])).2 = none ∧
    (tsel_extract_query lisp_host World.empty (EmacsValue.record
      [EmacsValue.symbol "tree-sitter-query",
        EmacsValue.user_ptr (some Finalizer.tsel_query_fin) 16])).2 = some 16 :=
  ⟨((handle_validation_double_check lisp_host World.empty tsel_Qnil).2.2.1
      (some Finalizer.tsel_query_fin) 16 (by decide)).2,
    ((handle_validation_double_check lisp_host World.empty (EmacsValue.record
      [EmacsValue.symbol "tree-sitter-query",
        EmacsValue.user_ptr (some Finalizer.tsel_query_fin) 16])).2.1 16).2 ⟨rfl, rfl⟩⟩

/-! ## C1: the message of a failed compile -/

/-- C1 (the code at the failing inputs): when the language and source arguments
are valid and `ts_query_new` reports failure (no query, category `c`, offset
`o`), `tsel_query_new` returns `nil` with the pending error
`"Initialization failed!"`, the same message for every `c` and `o`: the branch
that formats the category and offset runs only when the query is not `NULL`. -/
theorem query_compile_failure_message (H : Host) (w : World) (arg0 : EmacsValue)
    (lang : Ptr) (l : TSElLanguage) (source : String) (c : TSQueryError) (o : Nat)
    (wrapper : Ptr)
    (hw : w.pending = none)
    (hlang : tsel_extract_language H w arg0 = some (w, some lang))
    (hl : w.read lang = some (Block.language l)) :
    ∃ w', tsel_query_new H { query := 0, err := c, error_offset := o } wrapper w arg0
        (EmacsValue.string source) = some (w', tsel_Qnil) ∧
      w'.pending = some (Signal.error "Initialization failed!") ∧
      w'.count (Call.ts_query_new l.ptr source (strlen source)) =
        w.count (Call.ts_query_new l.ptr source (strlen source)) + 1 := by
  have hrun : tsel_query_new H { query := 0, err := c, error_offset := o } wrapper w arg0
      (EmacsValue.string source) = some (tsel_signal_error
        (if wrapper != 0 then
          (((w.call (Call.ts_query_new l.ptr source (strlen source))).malloc
            sizeof_TSElQuery wrapper).free wrapper)
        else ((w.call (Call.ts_query_new l.ptr source (strlen source))).malloc
            sizeof_TSElQuery wrapper)) "Initialization failed!", tsel_Qnil) := by
    simp [tsel_query_new, hlang, tsel_extract_string, hw, hl]
  refine ⟨_, hrun, ?_, ?_⟩
  · by_cases hwr : wrapper = 0 <;>
      simp [hwr, tsel_signal_error, env_signal, World.call, World.malloc, World.free, hw]
  · by_cases hwr : wrapper = 0 <;>
      simp [hwr, tsel_signal_error, env_signal, World.call, World.malloc, World.free, hw,
        World.count, List.count_append]

/-- Witness of C1: the source `(identifier) @id)`, whose last parenthesis at
offset 16 is unmatched, with `ts_query_new` reporting `Syntax` at 16. -/
theorem query_compile_failure_message_witness :
    World.sample.pending = none ∧
    tsel_extract_language lisp_host World.sample (language_handle 8)
      = some (World.sample, some 8) ∧
    ∃ w', tsel_query_new lisp_host
        { query := 0, err := TSQueryError.Syntax, error_offset := 16 } 112 World.sample
        (language_handle 8) (EmacsValue.string "(identifier) @id)") = some (w', tsel_Qnil) ∧
      w'.pending = some (Signal.error "Initialization failed!") ∧
      w'.count (Call.ts_query_new 1000 "(identifier) @id)" (strlen "(identifier) @id)")) =
        World.sample.count
          (Call.ts_query_new 1000 "(identifier) @id)" (strlen "(identifier) @id)")) + 1 :=
  ⟨rfl, rfl, query_compile_failure_message lisp_host World.sample (language_handle 8) 8
    { tag := cstring "TSLanguage", ptr := 1000 } "(identifier) @id)" TSQueryError.Syntax 16 112
    rfl rfl rfl⟩

/-- The formatting branch of `tsel_query_new` runs when the query was compiled
and only the wrapper allocation failed: the message then names the category and
offset `ts_query_new` left behind. -/
theorem tsel_query_new_formats_on_wrapper_failure :
    (tsel_query_new lisp_host { query := 96, err := TSQueryError.None, error_offset := 0 } 0
        World.sample (language_handle 8) (EmacsValue.string "(identifier) @id")).map
      (fun r => r.1.pending)
      = some (some (Signal.error "Initialization failed! TSQueryError:None,ErrorOffset:0.")) := by
  rfl

/-! ## C4, C5, C6: offsets and points -/

theorem tsel_extract_integer_valid (w : World) (i : Int) (hw : w.pending = none)
    (hlo : -(2 ^ 63 : Int) ≤ i) (hhi : i < 2 ^ 63) :
    tsel_extract_integer w (EmacsValue.integer i) = (w, some i) := by
  have hr : -9223372036854775808 ≤ i ∧ i < 9223372036854775808 := ⟨by omega, by omega⟩
  simp [tsel_extract_integer, hw, hr]

theorem to_uint32_of_fits (i : Int) (h0 : 0 ≤ i) (h1 : i < 2 ^ 32) :
    to_uint32 i = i.toNat := by
  unfold to_uint32
  rw [Int.emod_eq_of_lt h0 h1]

/-- C4: for a valid cursor and host integers `start ≥ 1`, `end ≥ 1` below `2^32`,
setByteRange returns `nil` after exactly the native call
`ts_query_cursor_set_byte_range(cursor, start - 1, end - 1)`: the two `uint32_t`
bounds are the mathematical integers `start - 1` and `end - 1`, without
wrap-around. -/
theorem set_byte_range_one_based (H : Host) (w : World) (p : Ptr) (c : TSElQueryCursor)
    (start stop : Int) (hw : w.pending = none) (hc : w.read p = some (Block.qcursor c))
    (hs1 : 1 ≤ start) (hs2 : start < 2 ^ 32) (he1 : 1 ≤ stop) (he2 : stop < 2 ^ 32) :
    ∃ s e : Nat,
      tsel_query_cursor_set_byte_range H w (qcursor_handle p) (EmacsValue.integer start)
          (EmacsValue.integer stop)
        = some (w.call (Call.ts_query_cursor_set_byte_range c.cursor s e), tsel_Qnil) ∧
      (s : Int) = start - 1 ∧ (e : Int) = stop - 1 ∧ s < 2 ^ 32 ∧ e < 2 ^ 32 := by
  refine ⟨(start - 1).toNat, (stop - 1).toNat, ?_, ?_, ?_, ?_, ?_⟩
  · have h1 := tsel_extract_integer_valid w start hw (by omega) (by omega)
    have h2 := tsel_extract_integer_valid w stop hw (by omega) (by omega)
    have u1 := to_uint32_of_fits (start - 1) (by omega) (by omega)
    have u2 := to_uint32_of_fits (stop - 1) (by omega) (by omega)
    simp [tsel_query_cursor_set_byte_range, tsel_extract_qcursor_valid H w p hw, h1, h2, hc,
      u1, u2]
  · omega
  · omega
  · omega
  · omega

/-- Witness of C4: the host range `[1, 4294967295)` becomes the native range
`[0, 4294967294)`. -/
theorem set_byte_range_one_based_witness :
    ∃ s e : Nat,
      tsel_query_cursor_set_byte_range lisp_host World.sample (qcursor_handle 48)
          (EmacsValue.integer 1) (EmacsValue.integer 4294967295)
        = some (World.sample.call (Call.ts_query_cursor_set_byte_range 64 s e), tsel_Qnil) ∧
      (s : Int) = 1 - 1 ∧ (e : Int) = 4294967295 - 1 ∧ s < 2 ^ 32 ∧ e < 2 ^ 32 :=
  set_byte_range_one_based lisp_host World.sample 48 { cursor := 64, node := none } 1 4294967295
    rfl rfl (by decide) (by decide) (by decide) (by decide)

/-- C5 (the code at the failing inputs): for a valid cursor and a second
argument that converts to the point `pt`, setPointRange calls
`ts_query_cursor_set_point_range(cursor, pt, pt)` whatever its third argument is:
the end of the range is the conversion of the second argument, and the third
argument is never read. -/
theorem set_point_range_reuses_first_point (H : Host) (w : World) (p : Ptr)
    (c : TSElQueryCursor) (p1 p2 : EmacsValue) (pt : TSPoint)
    (hw : w.pending = none) (hc : w.read p = some (Block.qcursor c))
    (h1 : H.point p1 = some pt) :
    tsel_query_cursor_set_point_range H w (qcursor_handle p) p1 p2
      = some (w.call (Call.ts_query_cursor_set_point_range c.cursor pt pt), tsel_Qnil) := by
  simp [tsel_query_cursor_set_point_range, tsel_extract_qcursor_valid H w p hw,
    tsel_extract_point, hw, h1, hc]

/-- Witness of C5: the points (0, 0) and (5, 3) reach the native library as the
range from (0, 0) to (0, 0). -/
theorem set_point_range_reuses_first_point_witness :
    lisp_host.point (point_value 5 3) = some { row := 5, column := 3 } ∧
    tsel_query_cursor_set_point_range lisp_host World.sample (qcursor_handle 48)
        (point_value 0 0) (point_value 5 3)
      = some (World.sample.call (Call.ts_query_cursor_set_point_range 64
          { row := 0, column := 0 } { row := 0, column := 0 }), tsel_Qnil) :=
  ⟨rfl, set_point_range_reuses_first_point lisp_host World.sample 48
    { cursor := 64, node := none } (point_value 0 0) (point_value 5 3)
    { row := 0, column := 0 } rfl rfl rfl⟩

/-- C6 as stated fails: when `ts_query_start_byte_for_pattern` returns
`2^32 - 1`, the host receives `0`, not `2^32`. -/
theorem start_byte_for_pattern_wraps :
    (tsel_query_start_byte_for_pattern lisp_host 4294967295 World.sample (query_handle 80)
        (EmacsValue.integer 0)).map (fun r => r.2) = some (EmacsValue.integer 0) ∧
    (tsel_query_start_byte_for_pattern lisp_host 4294967295 World.sample (query_handle 80)
        (EmacsValue.integer 0)).map (fun r => r.2)
      ≠ some (EmacsValue.integer (4294967295 + 1)) := by
  have h : (tsel_query_start_byte_for_pattern lisp_host 4294967295 World.sample (query_handle 80)
      (EmacsValue.integer 0)).map (fun r => r.2) = some (EmacsValue.integer 0) := rfl
  refine ⟨h, ?_⟩
  rw [h]
  simp

/-- C6, amended: for a valid query and a pattern id, the integer handed to the
host is `(native + 1) mod 2^32`, where `native < 2^32` is the result of
`ts_query_start_byte_for_pattern`; it equals `native + 1`, and is strictly
positive, whenever `native < 2^32 - 1`. -/
theorem start_byte_for_pattern_one_based (H : Host) (w : World) (p : Ptr) (q : TSElQuery)
    (id : Int) (native : Nat) (hw : w.pending = none) (hq : w.read p = some (Block.query q))
    (hlo : -(2 ^ 63 : Int) ≤ id) (hhi : id < 2 ^ 63) (hn : native < 2 ^ 32) :
    tsel_query_start_byte_for_pattern H native w (query_handle p) (EmacsValue.integer id)
      = some (w.call (Call.ts_query_start_byte_for_pattern q.query (to_uint32 id)),
          EmacsValue.integer (((native + 1) % 2 ^ 32 : Nat) : Int)) ∧
    (native < 2 ^ 32 - 1 →
      tsel_query_start_byte_for_pattern H native w (query_handle p) (EmacsValue.integer id)
        = some (w.call (Call.ts_query_start_byte_for_pattern q.query (to_uint32 id)),
            EmacsValue.integer ((native : Int) + 1))) := by
  have hi := tsel_extract_integer_valid w id hw hlo hhi
  have hmod : native % 2 ^ 32 = native := Nat.mod_eq_of_lt hn
  have hrun : tsel_query_start_byte_for_pattern H native w (query_handle p)
      (EmacsValue.integer id)
      = some (w.call (Call.ts_query_start_byte_for_pattern q.query (to_uint32 id)),
          EmacsValue.integer (((native + 1) % 2 ^ 32 : Nat) : Int)) := by
    simp [tsel_query_start_byte_for_pattern, tsel_extract_query_valid H w p hw, hi, hq,
      env_make_integer, World.call, hw, hmod]
  refine ⟨hrun, fun hlt => ?_⟩
  rw [hrun]
  have h2 : (native + 1) % 2 ^ 32 = native + 1 := Nat.mod_eq_of_lt (by omega)
  rw [h2]
  simp

/-- Witness of C6, amended: a pattern that starts at byte 13 is reported at 14. -/
theorem start_byte_for_pattern_one_based_witness :
    tsel_query_start_byte_for_pattern lisp_host 13 World.sample (query_handle 80)
        (EmacsValue.integer 2)
      = some (World.sample.call (Call.ts_query_start_byte_for_pattern 96 (to_uint32 2)),
          EmacsValue.integer ((13 : Nat) + 1 : Int)) :=
  (start_byte_for_pattern_one_based lisp_host World.sample 80 { query := 96 } 2 13
    rfl rfl (by decide) (by decide) (by decide)).2 (by decide)

/-! ## C7, C8: executing a cursor and pulling matches -/

theorem heap_find_map (f : Ptr × Cell → Ptr × Cell) (hf : ∀ e, (f e).1 = e.1)
    (l : List (Ptr × Cell)) (q : Ptr) :
    (l.map f).find? (fun e => e.1 == q) = (l.find? (fun e => e.1 == q)).map f := by
  induction l with
  | nil => rfl
  | cons e l ih =>
    simp only [List.map, List.find?, hf]
    cases h : (e.1 == q) <;> simp [ih]

theorem World.read_call (w : World) (c : Call) (p : Ptr) : (w.call c).read p = w.read p :=
  rfl

theorem World.pending_call (w : World) (c : Call) : (w.call c).pending = w.pending :=
  rfl

theorem tsel_query_match_create_ok (H : Host) (w : World) (c : TSElQueryCursor)
    (m : TSQueryMatch) (capture : TSQueryCapture) (rest : List TSQueryCapture) (pn : Ptr)
    (nd : TSElNode) (r : EmacsValue) (hw : w.pending = none)
    (hm : m.captures = capture :: rest) (hn : c.node = some pn)
    (hnd : w.read pn = some (Block.node nd))
    (hr : H.funcall "tree-sitter-query-match--create"
      [EmacsValue.integer m.capture_count, H.node_emacs_move capture.node nd.tree,
        EmacsValue.integer m.id, EmacsValue.integer m.pattern_index] = Except.ok r) :
    tsel_query_match_create H w c m = some (w, r) := by
  simp [tsel_query_match_create, hm, hn, hnd, tsel_node_emacs_move, env_make_integer,
    env_funcall, hw, hr]

theorem World.read_free_same (w : World) (p : Ptr) : (w.free p).read p = none := by
  obtain ⟨pend, heap, ups, tr⟩ := w
  simp only [World.read, World.cell, World.free]
  rw [heap_find_map _ (by intro e; split <;> rfl)]
  cases hfind : heap.find? (fun e => e.1 == p) with
  | none => simp
  | some e =>
    have he : e.1 = p := by simpa using List.find?_some hfind
    simp [he]

theorem World.read_free_other (w : World) (p q : Ptr) (h : q ≠ p) :
    (w.free p).read q = w.read q := by
  obtain ⟨pend, heap, ups, tr⟩ := w
  simp only [World.read, World.cell, World.free]
  rw [heap_find_map _ (by intro e; split <;> rfl)]
  cases hfind : heap.find? (fun e => e.1 == q) with
  | none => simp
  | some e =>
    have he : e.1 = q := by simpa using List.find?_some hfind
    have hep : ¬ e.1 = p := fun h2 => h (he.symm.trans h2)
    simp [hep]

/-- C9 (the code at the failing inputs): cursor creation, and query compile on
a valid language, where both allocations and `make_user_ptr` succeed and the
record constructor then raises `s`.  The function returns `nil` having freed
the wrapper and deleted the native object once by hand, and leaves behind the
user pointer it registered on that wrapper with the same finalizer.  The
wrapper is no longer a live block, so the run of that finalizer, which the host
owes at reclamation and which starts by reading the wrapper and ends by freeing
it again, is undefined. -/
theorem constructor_failure_leaves_finalizer (H : Host) (w : World) (wrapper : Ptr)
    (s : Signal) (hw : w.pending = none) (hwr : wrapper ≠ 0) (hmk : H.make_user_ptr = none) :
    (∀ qcursor, qcursor ≠ 0 →
      H.funcall "tree-sitter-query-cursor--create"
        [EmacsValue.user_ptr (some Finalizer.tsel_qcursor_fin) wrapper] = Except.error s →
      ∃ w1, tsel_query_cursor_new H wrapper qcursor w = some (w1, tsel_Qnil) ∧
        w1.user_ptrs = w.user_ptrs ++ [(Finalizer.tsel_qcursor_fin, wrapper)] ∧
        w1.count (Call.free wrapper) = w.count (Call.free wrapper) + 1 ∧
        w1.count (Call.ts_query_cursor_delete qcursor)
          = w.count (Call.ts_query_cursor_delete qcursor) + 1 ∧
        w1.read wrapper = none ∧
        run_finalizer w1 (Finalizer.tsel_qcursor_fin, wrapper) = none) ∧
    (∀ arg0 lang l source native, native.query ≠ 0 →
      tsel_extract_language H w arg0 = some (w, some lang) →
      w.read lang = some (Block.language l) →
      H.funcall "tree-sitter-query--create"
        [EmacsValue.user_ptr (some Finalizer.tsel_query_fin) wrapper] = Except.error s →
      ∃ w1, tsel_query_new H native wrapper w arg0 (EmacsValue.string source)
          = some (w1, tsel_Qnil) ∧
        w1.user_ptrs = w.user_ptrs ++ [(Finalizer.tsel_query_fin, wrapper)] ∧
        w1.count (Call.free wrapper) = w.count (Call.free wrapper) + 1 ∧
        w1.count (Call.ts_query_delete native.query)
          = w.count (Call.ts_query_delete native.query) + 1 ∧
        w1.read wrapper = none ∧
        run_finalizer w1 (Finalizer.tsel_query_fin, wrapper) = none) := by
  constructor
  · intro qcursor hqc hctor
    have hrun : tsel_query_cursor_new H wrapper qcursor w
        = some (tsel_signal_error (((
          (((w.malloc sizeof_TSElQuery wrapper).call Call.ts_query_cursor_new).write wrapper
              (Block.qcursor { cursor := qcursor, node := none })).registered_then_raised
            Finalizer.tsel_qcursor_fin wrapper s).call
          (Call.ts_query_cursor_delete qcursor)).free wrapper) "Initialization failed",
          tsel_Qnil) := by
      simp [tsel_query_cursor_new, hwr, hqc, env_make_user_ptr, hw, hmk, env_funcall, hctor,
        World.write, World.call, World.malloc, tsel_pending_nonlocal_exit, tsel_qcursor_fin,
        World.read, World.cell, World.free, World.registered_then_raised]
    have hdead : (tsel_signal_error (((
          (((w.malloc sizeof_TSElQuery wrapper).call Call.ts_query_cursor_new).write wrapper
              (Block.qcursor { cursor := qcursor, node := none })).registered_then_raised
            Finalizer.tsel_qcursor_fin wrapper s).call
          (Call.ts_query_cursor_delete qcursor)).free wrapper)
          "Initialization failed").read wrapper = none := by
      simp [tsel_signal_error, env_signal, World.call, World.free, World.write, World.malloc,
        World.read, World.cell, hwr, World.registered_then_raised]
    refine ⟨_, hrun, ?_, ?_, ?_, hdead, ?_⟩
    · simp [tsel_signal_error, env_signal, World.call, World.free, World.write, World.malloc,
        World.registered_then_raised]
    · simp [tsel_signal_error, env_signal, World.call, World.free, World.write, World.malloc,
        World.count, List.count_append, World.registered_then_raised]
    · simp [tsel_signal_error, env_signal, World.call, World.free, World.write, World.malloc,
        World.count, List.count_append, World.registered_then_raised]
    · simp [run_finalizer, tsel_qcursor_fin, hdead]
  · intro arg0 lang l source native hq hlang hl hctor
    have hrun : tsel_query_new H native wrapper w arg0 (EmacsValue.string source)
        = some (tsel_signal_error (((
          (((w.call (Call.ts_query_new l.ptr source (strlen source))).malloc
                sizeof_TSElQuery wrapper).write wrapper
              (Block.query { query := native.query })).registered_then_raised
            Finalizer.tsel_query_fin wrapper s).call
          (Call.ts_query_delete native.query)).free wrapper) "Initialization failed",
          tsel_Qnil) := by
      have hl2 := hl
      simp only [World.read, World.cell] at hl2
      simp [tsel_query_new, hlang, tsel_extract_string, hl2, hwr, hq, env_make_user_ptr, hw, hmk,
        env_funcall, hctor, World.write, World.call, World.malloc, tsel_pending_nonlocal_exit,
        tsel_query_fin, World.read, World.cell, World.free, World.registered_then_raised]
    have hdead : (tsel_signal_error (((
          (((w.call (Call.ts_query_new l.ptr source (strlen source))).malloc
                sizeof_TSElQuery wrapper).write wrapper
              (Block.query { query := native.query })).registered_then_raised
            Finalizer.tsel_query_fin wrapper s).call
          (Call.ts_query_delete native.query)).free wrapper)
          "Initialization failed").read wrapper = none := by
      simp [tsel_signal_error, env_signal, World.call, World.free, World.write, World.malloc,
        World.read, World.cell, hwr, World.registered_then_raised]
    refine ⟨_, hrun, ?_, ?_, ?_, hdead, ?_⟩
    · simp [tsel_signal_error, env_signal, World.call, World.free, World.write, World.malloc,
        World.registered_then_raised]
    · simp [tsel_signal_error, env_signal, World.call, World.free, World.write, World.malloc,
        World.count, List.count_append, World.registered_then_raised]
    · simp [tsel_signal_error, env_signal, World.call, World.free, World.write, World.malloc,
        World.count, List.count_append, World.registered_then_raised]
    · simp [run_finalizer, tsel_query_fin, hdead]

/-- Witness of C9: a cursor whose constructor raises, wrapper at 48 around the
native cursor 64. -/
theorem constructor_failure_leaves_finalizer_witness :
    ∃ w1, tsel_query_cursor_new failing_host 48 64 World.empty = some (w1, tsel_Qnil) ∧
      w1.user_ptrs = World.empty.user_ptrs ++ [(Finalizer.tsel_qcursor_fin, 48)] ∧
      w1.count (Call.free 48) = World.empty.count (Call.free 48) + 1 ∧
      w1.count (Call.ts_query_cursor_delete 64)
        = World.empty.count (Call.ts_query_cursor_delete 64) + 1 ∧
      w1.read 48 = none ∧
      run_finalizer w1 (Finalizer.tsel_qcursor_fin, 48) = none :=
  (constructor_failure_leaves_finalizer failing_host World.empty 48 (Signal.host 3) rfl
    (by decide) rfl).1 64 (by decide) rfl

/-- The same runs followed by the host reclaiming every user pointer: the
reclamation is undefined, for the cursor and for the query, because the one
finalizer it has to run reads a wrapper that was already freed. -/
theorem constructor_failure_then_reclaim :
    (tsel_query_cursor_new failing_host 48 64 World.empty).bind
        (fun r => host_reclaim_all r.1) = none ∧
    (tsel_query_new failing_host { query := 96, err := TSQueryError.None, error_offset := 0 } 80
        World.grammar (language_handle 8) (EmacsValue.string "(identifier) @id")).bind
        (fun r => host_reclaim_all r.1) = none := by
  constructor <;> rfl

/-- The other paths of cursor creation and query compile release each resource
once: success followed by reclamation, and either allocation failing. -/
theorem other_paths_release_once :
    ((tsel_query_cursor_new lisp_host 48 64 World.empty).bind
        (fun r => host_reclaim_all r.1)).map
      (fun w => (w.count (Call.free 48), w.count (Call.ts_query_cursor_delete 64)))
      = some (1, 1) ∧
    ((tsel_query_cursor_new lisp_host 48 0 World.empty).bind
        (fun r => host_reclaim_all r.1)).map
      (fun w => (w.count (Call.free 48), w.user_ptrs.length)) = some (1, 0) ∧
    ((tsel_query_cursor_new lisp_host 0 64 World.empty).bind
        (fun r => host_reclaim_all r.1)).map
      (fun w => (w.count (Call.ts_query_cursor_delete 64), w.user_ptrs.length)) = some (1, 0) ∧
    ((tsel_query_new lisp_host { query := 96, err := TSQueryError.None, error_offset := 0 } 80
        World.grammar (language_handle 8) (EmacsValue.string "(identifier) @id")).bind
        (fun r => host_reclaim_all r.1)).map
      (fun w => (w.count (Call.free 80), w.count (Call.ts_query_delete 96)))
      = some (1, 1) := by
  refine ⟨?_, ?_, ?_, ?_⟩ <;> rfl

/-- C10 as stated fails: the release path run a second time on the query wrapper
at 80, or on the cursor wrapper at 48, reads the wrapper the first run freed;
the second run is undefined, so no state follows it in which the delete counter
is 1. -/
theorem release_path_twice_undefined :
    (tsel_query_fin World.sample 80).bind (fun w => tsel_query_fin w 80) = none ∧
    (tsel_qcursor_fin World.sample 48).bind (fun w => tsel_qcursor_fin w 48) = none ∧
    ¬ (∃ w2, (tsel_query_fin World.sample 80).bind (fun w => tsel_query_fin w 80) = some w2 ∧
        w2.count (Call.ts_query_delete 96) = 1) := by
  have h1 : (tsel_query_fin World.sample 80).bind (fun w => tsel_query_fin w 80) = none := rfl
  refine ⟨h1, rfl, ?_⟩
  rintro ⟨w2, h2, _⟩
  rw [h1] at h2
  cases h2

/-- C10, amended: one run of the release path on a live wrapper issues exactly
one native delete call for the wrapper's native resource and one `free` of the
wrapper, and leaves the wrapper freed.  The release path checks nothing before
reading the wrapper, so a second run on the same wrapper is a read of freed
memory and is undefined. -/
theorem release_path_once_then_undefined (w : World) (ptr : Ptr) :
    (∀ q, w.read ptr = some (Block.query q) →
      ∃ w1, tsel_query_fin w ptr = some w1 ∧
        w1.count (Call.ts_query_delete q.query) = w.count (Call.ts_query_delete q.query) + 1 ∧
        w1.count (Call.free ptr) = w.count (Call.free ptr) + 1 ∧
        w1.read ptr = none ∧
        tsel_query_fin w1 ptr = none) ∧
    (∀ c, w.read ptr = some (Block.qcursor c) →
      ∃ w1, tsel_qcursor_fin w ptr = some w1 ∧
        w1.count (Call.ts_query_cursor_delete c.cursor)
          = w.count (Call.ts_query_cursor_delete c.cursor) + 1 ∧
        w1.count (Call.free ptr) = w.count (Call.free ptr) + 1 ∧
        w1.read ptr = none ∧
        tsel_qcursor_fin w1 ptr = none) := by
  constructor
  · intro q hq
    have h1 : tsel_query_fin w ptr = some ((w.call (Call.ts_query_delete q.query)).free ptr) := by
      simp [tsel_query_fin, hq]
    have hdead : ((w.call (Call.ts_query_delete q.query)).free ptr).read ptr = none :=
      World.read_free_same _ ptr
    refine ⟨_, h1, ?_, ?_, hdead, ?_⟩
    · simp [World.count, World.call, World.free, List.count_append]
    · simp [World.count, World.call, World.free, List.count_append]
    · simp [tsel_query_fin, hdead]
  · intro c hc
    have h1 : tsel_qcursor_fin w ptr
        = some ((w.call (Call.ts_query_cursor_delete c.cursor)).free ptr) := by
      simp [tsel_qcursor_fin, hc]
    have hdead : ((w.call (Call.ts_query_cursor_delete c.cursor)).free ptr).read ptr = none :=
      World.read_free_same _ ptr
    refine ⟨_, h1, ?_, ?_, hdead, ?_⟩
    · simp [World.count, World.call, World.free, List.count_append]
    · simp [World.count, World.call, World.free, List.count_append]
    · simp [tsel_qcursor_fin, hdead]

/-- Witness of C10, amended: the query wrapper at 80 of the sample world. -/
theorem release_path_once_then_undefined_witness :
    ∃ w1, tsel_query_fin World.sample 80 = some w1 ∧
      w1.count (Call.ts_query_delete 96) = World.sample.count (Call.ts_query_delete 96) + 1 ∧
      w1.count (Call.free 80) = World.sample.count (Call.free 80) + 1 ∧
      w1.read 80 = none ∧
      tsel_query_fin w1 80 = none :=
  (release_path_once_then_undefined World.sample 80).1 { query := 96 } rfl

/-! ## C13: the node of nextCapture -/

/-- C13 (the code at the failing inputs): for a valid cursor (wrapper `c` at `p`)
that records the node struct `nd`, when `ts_query_cursor_next_capture` reports
the match `m` and any capture index `index`, nextCapture returns the value of
`tree-sitter-query-match--create` on `m.capture_count`, the node of the FIRST
capture of `m` re-homed under `nd.tree`, `m.id` and `m.pattern_index`: the index
the native call wrote is never read, so the result is the same for every
`index`. -/
theorem next_capture_returns_first_capture (H : Host) (w : World) (p : Ptr)
    (c : TSElQueryCursor) (m : TSQueryMatch) (index : Nat) (first : TSQueryCapture)
    (rest : List TSQueryCapture) (pn : Ptr) (nd : TSElNode) (r : EmacsValue)
    (hw : w.pending = none) (hc : w.read p = some (Block.qcursor c))
    (hm : m.captures = first :: rest) (hn : c.node = some pn)
    (hnd : w.read pn = some (Block.node nd))
    (hr : H.funcall "tree-sitter-query-match--create"
      [EmacsValue.integer m.capture_count, H.node_emacs_move first.node nd.tree,
        EmacsValue.integer m.id, EmacsValue.integer m.pattern_index] = Except.ok r) :
    tsel_query_cursor_next_capture H (some (m, index)) w (qcursor_handle p)
      = some (w.call (Call.ts_query_cursor_next_capture c.cursor), r) := by
  have hk := tsel_query_match_create_ok H (w.call (Call.ts_query_cursor_next_capture c.cursor))
    c m first rest pn nd r hw hm hn hnd hr
  simp [tsel_query_cursor_next_capture, tsel_extract_qcursor_valid H w p hw, hc, hk]

/-- Witness of C13: the native iterator stands on capture 1 of the sample match
(native node 71); the tuple carries native node 70, the node of capture 0. -/
theorem next_capture_returns_first_capture_witness :
    TSQueryMatch.sample.captures.get? 1 = some { node := { id := 71 }, index := 1 } ∧
    tsel_query_cursor_next_capture lisp_host (some (TSQueryMatch.sample, 1)) World.bound
        (qcursor_handle 48)
      = some (World.bound.call (Call.ts_query_cursor_next_capture 64),
          EmacsValue.record [EmacsValue.symbol "tree-sitter-query-match", EmacsValue.integer 2,
            EmacsValue.record [EmacsValue.symbol "tree-sitter-node", EmacsValue.integer 70,
              EmacsValue.integer 40],
            EmacsValue.integer 5, EmacsValue.integer 1]) :=
  ⟨rfl, next_capture_returns_first_capture lisp_host World.bound 48
    { cursor := 64, node := some 24 } TSQueryMatch.sample 1 { node := { id := 70 }, index := 0 }
    [{ node := { id := 71 }, index := 1 }] 24 { node := { id := 7 }, tree := 40 }
    (EmacsValue.record [EmacsValue.symbol "tree-sitter-query-match", EmacsValue.integer 2,
      EmacsValue.record [EmacsValue.symbol "tree-sitter-node", EmacsValue.integer 70,
        EmacsValue.integer 40],
      EmacsValue.integer 5, EmacsValue.integer 1])
    rfl rfl rfl rfl rfl rfl⟩

/-! ## C12: cleanup when cursor creation fails -/

/-- C12: in `tsel_query_cursor_new`, entered with nothing pending, when the
wrapper allocation or the native cursor (or both) came back `NULL`, the function
returns `nil` with the error `"Initialization failed!"` pending, registers no
user pointer, and after the two allocation calls the trace holds exactly
`free(wrapper)` when the wrapper was allocated and exactly
`ts_query_cursor_delete(qcursor)` when the native cursor was created, and
nothing for an allocation that failed.  When both succeeded (and the host then
builds the handle), the trace holds the two allocation calls and no release,
and the wrapper's `cursor` field is the new native cursor. -/
theorem cursor_creation_cleanup (H : Host) (w : World) (wrapper qcursor : Ptr)
    (hw : w.pending = none) :
    ((wrapper = 0 ∨ qcursor = 0) →
      ∃ w', tsel_query_cursor_new H wrapper qcursor w = some (w', tsel_Qnil) ∧
        w'.pending = some (Signal.error "Initialization failed!") ∧
        w'.user_ptrs = w.user_ptrs ∧
        w'.trace = w.trace ++ [Call.malloc sizeof_TSElQuery wrapper, Call.ts_query_cursor_new]
          ++ (if wrapper = 0 then [] else [Call.free wrapper])
          ++ (if qcursor = 0 then [] else [Call.ts_query_cursor_delete qcursor])) ∧
    (∀ r, wrapper ≠ 0 → qcursor ≠ 0 → H.make_user_ptr = none →
      H.funcall "tree-sitter-query-cursor--create"
        [EmacsValue.user_ptr (some Finalizer.tsel_qcursor_fin) wrapper] = Except.ok r →
      ∃ w', tsel_query_cursor_new H wrapper qcursor w = some (w', r) ∧
        w'.pending = none ∧
        w'.user_ptrs = w.user_ptrs ++ [(Finalizer.tsel_qcursor_fin, wrapper)] ∧
        w'.trace = w.trace ++ [Call.malloc sizeof_TSElQuery wrapper, Call.ts_query_cursor_new] ∧
        w'.read wrapper = some (Block.qcursor { cursor := qcursor, node := none })) := by
  constructor
  · intro hfail
    refine ⟨tsel_signal_error
      ((fun w1 : World => if qcursor != 0 then w1.call (Call.ts_query_cursor_delete qcursor)
          else w1)
        ((fun w1 : World => if wrapper != 0 then w1.free wrapper else w1)
          ((w.malloc sizeof_TSElQuery wrapper).call Call.ts_query_cursor_new)))
      "Initialization failed!", ?_, ?_, ?_, ?_⟩
    · rcases hfail with h | h <;> simp [tsel_query_cursor_new, h]
    · by_cases h1 : wrapper = 0 <;> by_cases h2 : qcursor = 0 <;>
        simp [h1, h2, tsel_signal_error, env_signal, World.call, World.malloc, World.free, hw]
    · by_cases h1 : wrapper = 0 <;> by_cases h2 : qcursor = 0 <;>
        simp [h1, h2, tsel_signal_error, env_signal, World.call, World.malloc, World.free, hw]
    · by_cases h1 : wrapper = 0 <;> by_cases h2 : qcursor = 0 <;>
        simp [h1, h2, tsel_signal_error, env_signal, World.call, World.malloc, World.free, hw]
  · intro r h1 h2 hmk hr
    refine ⟨{ (((w.malloc sizeof_TSElQuery wrapper).call Call.ts_query_cursor_new).write wrapper
        (Block.qcursor { cursor := qcursor, node := none })) with
        user_ptrs := w.user_ptrs ++ [(Finalizer.tsel_qcursor_fin, wrapper)] }, ?_, ?_, ?_, ?_, ?_⟩
    · simp [tsel_query_cursor_new, h1, h2, env_make_user_ptr, hw, hmk, env_funcall, hr,
        World.write, World.call, World.malloc, tsel_pending_nonlocal_exit]
    · simp [World.write, World.call, World.malloc, hw]
    · rfl
    · simp [World.write, World.call, World.malloc]
    · simp [World.read, World.cell, World.write, World.call, World.malloc, h1]

/-- Witness of C12: the wrapper is allocated at 48 and `ts_query_cursor_new`
returns `NULL`; the wrapper is freed once and nothing else is released. -/
theorem cursor_creation_cleanup_witness :
    ∃ w', tsel_query_cursor_new lisp_host 48 0 World.empty = some (w', tsel_Qnil) ∧
      w'.pending = some (Signal.error "Initialization failed!") ∧
      w'.user_ptrs = [] ∧
      w'.trace = [Call.malloc sizeof_TSElQuery 48, Call.ts_query_cursor_new, Call.free 48] :=
  (cursor_creation_cleanup lisp_host World.empty 48 0 rfl).1 (Or.inr rfl)

/-! ## C14: the size of the cursor wrapper -/

/-- C14 (the code at the failing inputs): a cursor creation in which both
allocations succeed and the host builds the handle asks `malloc` for
`sizeof(TSElQuery)` bytes, one pointer, for the wrapper, which is less than
`sizeof(TSElQueryCursor)`, two pointers.  The store to the `cursor` field falls
inside the requested block; the store to the `node` field, which follows it,
does not. -/
theorem cursor_wrapper_allocation_too_small (H : Host) (w : World) (wrapper qcursor : Ptr)
    (r : EmacsValue) (hw : w.pending = none) (hwr : wrapper ≠ 0) (hqc : qcursor ≠ 0)
    (hmk : H.make_user_ptr = none)
    (hr : H.funcall "tree-sitter-query-cursor--create"
      [EmacsValue.user_ptr (some Finalizer.tsel_qcursor_fin) wrapper] = Except.ok r) :
    ∃ w', tsel_query_cursor_new H wrapper qcursor w = some (w', r) ∧
      w'.requested wrapper = some sizeof_TSElQuery ∧
      sizeof_TSElQuery < sizeof_TSElQueryCursor ∧
      pointer_store_inside sizeof_TSElQuery offsetof_cursor = true ∧
      pointer_store_inside sizeof_TSElQuery offsetof_node = false ∧
      pointer_store_inside sizeof_TSElQueryCursor offsetof_node = true := by
  refine ⟨{ (((w.malloc sizeof_TSElQuery wrapper).call Call.ts_query_cursor_new).write wrapper
      (Block.qcursor { cursor := qcursor, node := none })) with
      user_ptrs := w.user_ptrs ++ [(Finalizer.tsel_qcursor_fin, wrapper)] }, ?_, ?_, ?_, ?_, ?_, ?_⟩
  · simp [tsel_query_cursor_new, hwr, hqc, env_make_user_ptr, hw, hmk, env_funcall, hr,
      World.write, World.call, World.malloc, tsel_pending_nonlocal_exit]
  · simp [World.requested, World.write, World.call, World.malloc, List.reverse_append]
  · decide
  · decide
  · decide
  · decide

/-- Witness of C14: the wrapper at 48 was requested with 8 bytes; the record
takes 16. -/
theorem cursor_wrapper_allocation_too_small_witness :
    ∃ w', tsel_query_cursor_new lisp_host 48 64 World.empty
        = some (w', qcursor_handle 48) ∧
      w'.requested 48 = some sizeof_TSElQuery ∧
      sizeof_TSElQuery < sizeof_TSElQueryCursor ∧
      pointer_store_inside sizeof_TSElQuery offsetof_cursor = true ∧
      pointer_store_inside sizeof_TSElQuery offsetof_node = false ∧
      pointer_store_inside sizeof_TSElQueryCursor offsetof_node = true :=
  cursor_wrapper_allocation_too_small lisp_host World.empty 48 64 (qcursor_handle 48)
    rfl (by decide) (by decide) rfl rfl

/-! ## C11: the language predicate -/

theorem strncmp_eq_iff (n : Nat) : ∀ a b : List Nat,
    (∀ i, i + 1 < n → b.getD i 0 ≠ 0) →
    (strncmp_eq a b n = true ↔ ∀ i, i < n → a.getD i 0 = b.getD i 0) := by
  induction n with
  | zero => intro a b _; simp [strncmp_eq]
  | succ n ih =>
    intro a b hb
    have ha0 : a.headD 0 = a.getD 0 0 := by cases a <;> rfl
    have hb0 : b.headD 0 = b.getD 0 0 := by cases b <;> rfl
    have hat : ∀ i, a.tail.getD i 0 = a.getD (i + 1) 0 := by intro i; cases a <;> simp
    have hbt : ∀ i, b.tail.getD i 0 = b.getD (i + 1) 0 := by intro i; cases b <;> simp
    unfold strncmp_eq
    split_ifs with h0 hz
    · constructor
      · intro h
        cases h
      · intro h
        exact absurd (by rw [ha0, hb0]; exact h 0 (by omega)) h0
    · have h0' : a.headD 0 = b.headD 0 := not_not.mp h0
      have hn : n = 0 := by
        by_contra hne
        exact hb 0 (by omega) (by rw [← hb0, ← h0', hz])
      subst hn
      constructor
      · intro _ i hi
        have hi0 : i = 0 := by omega
        subst hi0
        rw [← ha0, ← hb0, h0']
      · intro _
        rfl
    · have h0' : a.headD 0 = b.headD 0 := not_not.mp h0
      rw [ih a.tail b.tail (by
        intro i hi
        rw [hbt]
        exact hb (i + 1) (by omega))]
      constructor
      · intro h i hi
        cases i with
        | zero => rw [← ha0, ← hb0, h0']
        | succ j =>
          have hj := h j (by omega)
          rwa [hat, hbt] at hj
      · intro h i hi
        rw [hat, hbt]
        exact h (i + 1) (by omega)


theorem cstring_TSLanguage_nonzero :
    ∀ i, i + 1 < 11 → (cstring "TSLanguage").getD i 0 ≠ 0 := by
  intro i hi
  have hlt : i < 10 := by omega
  interval_cases i <;> decide

/-- C11 as stated fails: `tsel_language_p` accepts the language struct at 8 behind
a user pointer with no finalizer and behind one with a foreign finalizer, and
accepts the struct of another producer at 200; no finalizer is the one it
expects. -/
theorem language_p_ignores_finalizer :
    (tsel_language_p lisp_host World.impostor (language_record none 8)).map (fun r => r.2)
      = some true ∧
    (tsel_language_p lisp_host World.impostor
        (language_record (some (Finalizer.foreign 7)) 8)).map (fun r => r.2) = some true ∧
    (tsel_language_p lisp_host World.impostor
        (language_record (some (Finalizer.foreign 7)) 200)).map (fun r => r.2) = some true ∧
    ¬ ∃ expected : Option Finalizer, ∀ fin,
      (tsel_language_p lisp_host World.impostor (language_record fin 8)).map (fun r => r.2)
        = some true → fin = expected := by
  refine ⟨rfl, rfl, rfl, ?_⟩
  rintro ⟨expected, he⟩
  have h1 := he none rfl
  have h2 := he (some (Finalizer.foreign 7)) rfl
  rw [← h1] at h2
  cases h2

/-- C11, amended: entered with nothing pending, `tsel_language_p` answers `true`
exactly when the host predicate `tree-sitter-language-p` answers `t` for the
value, its `ptr` field is a user pointer whose address is not `NULL`, and the
first 11 bytes of the tag read at that address are `TSLanguage` and its
terminator.  The user pointer's finalizer `fin` is not examined. -/
theorem language_p_checks (H : Host) (w : World) (obj : EmacsValue) (hw : w.pending = none) :
    (tsel_language_p H w obj).map (fun r => r.2) = some true ↔
      (H.funcall "tree-sitter-language-p" [obj] = Except.ok tsel_Qt ∧
        ∃ fin p tag,
          H.funcall "tree-sitter-language-ptr" [obj] = Except.ok (EmacsValue.user_ptr fin p) ∧
          p ≠ 0 ∧ (w.read p).bind Block.tag = some tag ∧
          ∀ i, i < 11 → tag.getD i 0 = (cstring "TSLanguage").getD i 0) := by
  cases h1 : H.funcall "tree-sitter-language-p" [obj] with
  | error s =>
    simp [tsel_language_p, env_funcall, hw, h1, env_eq, tsel_pending_nonlocal_exit]
  | ok r =>
    by_cases hr : r = tsel_Qt
    · subst hr
      cases h2 : H.funcall "tree-sitter-language-ptr" [obj] with
      | error s =>
        simp [tsel_language_p, env_funcall, hw, h1, h2, env_eq, tsel_pending_nonlocal_exit,
          tsel_Qt]
      | ok u =>
        cases u with
        | user_ptr fin p =>
          by_cases hp : p = 0
          · simp [tsel_language_p, env_funcall, hw, h1, h2, env_eq,
              tsel_pending_nonlocal_exit, tsel_Qt, env_get_user_ptr, hp]
          · cases h3 : (w.read p).bind Block.tag with
            | none =>
              simp [tsel_language_p, env_funcall, hw, h1, h2, env_eq,
                tsel_pending_nonlocal_exit, tsel_Qt, env_get_user_ptr, hp, h3]
            | some tag =>
              have hs := strncmp_eq_iff 11 tag (cstring "TSLanguage")
                cstring_TSLanguage_nonzero
              simp [tsel_language_p, env_funcall, hw, h1, h2, env_eq,
                tsel_pending_nonlocal_exit, tsel_Qt, env_get_user_ptr, hp, h3, hs]
              constructor
              · intro h
                exact ⟨fin, p, ⟨rfl, rfl⟩, hp, tag, h3, h⟩
              · rintro ⟨_, _, ⟨rfl, rfl⟩, _, x, hx, h⟩
                rw [h3] at hx
                cases hx
                exact h
        | _ =>
          simp [tsel_language_p, env_funcall, hw, h1, h2, env_eq,
            tsel_pending_nonlocal_exit, tsel_Qt, tsel_Qnil]
    · have he : env_eq w r tsel_Qt = false := by
        cases r <;> simp_all [env_eq, tsel_Qt]
      simp [tsel_language_p, env_funcall, hw, h1, he, hr]

/-- Witness of C11, amended: the language handle around the struct at 8. -/
theorem language_p_checks_witness :
    (tsel_language_p lisp_host World.sample (language_handle 8)).map (fun r => r.2)
      = some true :=
  (language_p_checks lisp_host World.sample (language_handle 8) rfl).2
    ⟨rfl, none, 8, cstring "TSLanguage", rfl, by decide, rfl, by decide⟩

end TreeSitterEl
